import Mathlib

/-!
Verification of the orchestration core in `src/aipy/agent.py` (class `Agent`).

The pure logic of the source is shallowly embedded: the reply classifier
`parse_reply`, the instruction loop `__call__` with its execution-feedback
cycle `process_code_reply`, the resume operation `step`, the prompt assembly
part of `_init`, and `publish`.  External collaborators that are not under
`src/` (the model client `llm.py`, the execution sandbox `runner.py`, the
`requests` transport, the i18n translation table) are modelled from the
spec's collaborator contracts, as noted on each such definition.

The Python string primitives the source uses — `str.split('\n')`,
`str.strip()`, `str.startswith(p)`, `'\n'.join(lines)` — are embedded at the
character level (`pySplit`, `pyStrip`, `pyStartsWith`, `pyJoin`) so that all
definitions compute inside the kernel.
-/

set_option autoImplicit false

/-- Helper for `pySplit`: walk the characters, cutting at every newline. -/
def splitAux : List Char → List Char → List String
  | [], acc => [String.mk acc.reverse]
  | c :: cs, acc =>
    if c = '\n' then String.mk acc.reverse :: splitAux cs []
    else splitAux cs (c :: acc)

/-- Python `s.split('\n')`: the segments of `s` between newlines; the empty
string splits to `[""]`. -/
def pySplit (s : String) : List String := splitAux s.data []

/-- Python `s.strip()`: drop leading and trailing whitespace characters. -/
def pyStrip (s : String) : String :=
  String.mk (((s.data.dropWhile Char.isWhitespace).reverse.dropWhile Char.isWhitespace).reverse)

/-- Python `s.startswith(pre)`. -/
def pyStartsWith (s pre : String) : Bool := pre.data.isPrefixOf s.data

/-- Python `'\n'.join(lines)`. -/
def pyJoin : List String → String
  | [] => ""
  | [s] => s
  | s :: rest => s ++ "\n" ++ pyJoin rest

/-- `MsgType` from agent.py: the two reply classifications. -/
inductive MsgType where
  | CODE
  | TEXT
  deriving DecidableEq, Repr

/-- The dictionary returned by `Agent.parse_reply`: a `type` tag and the
`code` payload (`None` on the TEXT arm). -/
structure Reply where
  type : MsgType
  code : Option String
  deriving DecidableEq, Repr

/-- The line-scanning loop of `Agent.parse_reply` (agent.py lines 105-112):
for each line, a line whose stripped form starts with the runnable marker
(three backticks and the word run) (re)enters the fence and is itself
skipped; a stripped line starting with three backticks while inside the
fence stops the scan; any other line is collected when inside the fence and
skipped otherwise. -/
def Agent.parseLoop : List String → Bool → List String → List String
  | [], _, acc => acc
  | line :: rest, inCode, acc =>
    if pyStartsWith (pyStrip line) "```run" then
      Agent.parseLoop rest true acc
    else if pyStartsWith (pyStrip line) "```" && inCode then
      acc
    else if inCode then
      Agent.parseLoop rest inCode (acc ++ [line])
    else
      Agent.parseLoop rest inCode acc

/-- `Agent.parse_reply` (agent.py lines 101-118): split the reply on
newlines, run the fence scanner, and return CODE with the collected lines
joined by newlines when any line was collected, TEXT with no payload
otherwise. -/
def Agent.parse_reply (text : String) : Reply :=
  let code_block := Agent.parseLoop (pySplit text) false []
  if code_block.isEmpty then
    { type := MsgType.TEXT, code := none }
  else
    { type := MsgType.CODE, code := some (pyJoin code_block) }

example : Agent.parse_reply "hello" = { type := MsgType.TEXT, code := none } := by decide

example : Agent.parse_reply "a\n```run\nx\ny\n```\nb" =
    { type := MsgType.CODE, code := some "x\ny" } := by decide

example : Agent.parse_reply "```run\n```" = { type := MsgType.TEXT, code := none } := by decide

example : Agent.parse_reply "```run\nx\n```\n```run\ny\n```" =
    { type := MsgType.CODE, code := some "x" } := by decide

example : Agent.parse_reply "```run\nx" = { type := MsgType.CODE, code := some "x" } := by decide

/-- Python truthiness of an optional string: `None` and `""` are falsy. -/
def truthyOpt : Option String → Bool
  | none => false
  | some s => !(s == "")

/-- Role of a message recorded in the model collaborator's history. -/
inductive Role where
  | user
  | assistant
  deriving DecidableEq, Repr

/-- A message in the model collaborator's history. -/
structure Message where
  role : Role
  content : String
  deriving DecidableEq, Repr

/-- Modelled from the spec: the model collaborator (llm.py is not under
src/).  Per the spec's contract it exposes `send(text, system_prompt?,
name?) -> reply text or empty`, an inspectable `history` that is non-empty
after first use, `clear()`, and `get_last_message()`.  Its replies are
modelled by a predetermined `script`; an exhausted script yields the empty
reply. -/
structure LLMModel where
  history : List Message
  script : List String
  deriving DecidableEq, Repr

/-- Modelled from the spec: one model call records the prompt (and the
reply, when non-empty) in the history and serves the next scripted reply,
or the empty reply when the script is exhausted. -/
def LLMModel.send (l : LLMModel) (prompt : String) : String × LLMModel :=
  match l.script with
  | [] => ("", { l with history := l.history ++ [{ role := Role.user, content := prompt }] })
  | r :: rest =>
    (r, { history := l.history ++
            [{ role := Role.user, content := prompt }, { role := Role.assistant, content := r }],
          script := rest })

/-- Modelled from the spec: `get_last_message()` returns the most recently
recorded model (assistant) message, or nothing when none exists. -/
def LLMModel.get_last_message (l : LLMModel) : Option String :=
  ((l.history.filter fun m => m.role == Role.assistant).getLast?).map Message.content

/-- Modelled from the spec: `llm.clear()` empties the conversation
history. -/
def LLMModel.clear (l : LLMModel) : LLMModel := { l with history := [] }

/-- The session state of `Agent` that the verified operations touch,
together with two observation traces: `executed` records every code block
handed to the execution collaborator, in order, and `sentSysPrompts`
records the `system_prompt` argument of every model call, in order. -/
structure AgentState where
  instruction : Option String
  system_prompt : Option String
  llm : LLMModel
  executed : List String
  sentSysPrompts : List (Option String)
  deriving DecidableEq, Repr

/-- A model call made by the agent (`self.llm(prompt, system_prompt=sys)`):
delegates to the collaborator and records the system-prompt argument in the
trace. -/
def AgentState.llmSend (a : AgentState) (prompt : String) (sys : Option String) :
    String × AgentState :=
  ((a.llm.send prompt).1,
   { a with llm := (a.llm.send prompt).2, sentSysPrompts := a.sentSysPrompts ++ [sys] })

/-- `Agent.process_code_reply` (agent.py lines 120-128): hand the code block
to the execution collaborator, serialize its result, resubmit the serialized
result to the model with no system prompt, and return the model's next
reply.  The execution collaborator together with the JSON serialization of
its structured result is modelled from the spec as a function
`exec : code → serialized result` (runner.py is not under src/). -/
def AgentState.process_code_reply (exec : String → String) (a : AgentState) (code : String) :
    String × AgentState :=
  let result := exec code
  let a' := { a with executed := a.executed ++ [code] }
  a'.llmSend result none

/-- The `while response:` loop of `Agent.__call__` (agent.py lines
139-144), with explicit fuel: while the reply is non-empty, classify it;
stop on a non-CODE reply; otherwise run the execution-feedback cycle and
continue with the reply it returns.  `Agent.call` supplies fuel that is
always sufficient, so the fuel never changes the result. -/
def AgentState.runLoop (exec : String → String) : Nat → AgentState → String → AgentState
  | 0, a, _ => a
  | fuel + 1, a, response =>
    if response = "" then a
    else
      let msg := Agent.parse_reply response
      if msg.type ≠ MsgType.CODE then a
      else
        let fed := a.process_code_reply exec (msg.code.getD "")
        AgentState.runLoop exec fuel fed.2 fed.1

/-- `Agent.__call__` (agent.py lines 130-146): compute the system-prompt
argument (`None` when the model's history is non-empty, the session's
`system_prompt` otherwise), record the instruction as the active
instruction when that argument is truthy, send the instruction, and run the
feedback loop on the reply.  Fuel `script length + 2` strictly exceeds the
number of model replies still available, so the embedded loop runs until
the source's loop would stop. -/
def AgentState.call (exec : String → String) (a : AgentState) (instruction : String) :
    AgentState :=
  let sys := if a.llm.history = [] then a.system_prompt else none
  let a₁ := if truthyOpt sys then { a with instruction := some instruction } else a
  let sent := a₁.llmSend instruction sys
  AgentState.runLoop exec (sent.2.llm.script.length + 2) sent.2 sent.1

/-- `Agent.clear` (agent.py lines 82-90): unconditionally clear the model
collaborator's history and the execution collaborator's state.  The
`executed` and `sentSysPrompts` fields are observation traces of past
events, not collaborator state, so they are left untouched. -/
def AgentState.clear (a : AgentState) : AgentState := { a with llm := a.llm.clear }

/-- The method names defined on class `Agent` in agent.py. -/
def agentMethodNames : List String :=
  ["__init__", "_init", "reset", "clear", "save", "parse_reply",
   "process_code_reply", "__call__", "chat", "step", "publish"]

/-- Outcome of `Agent.step` when no exception is raised. -/
inductive StepResult where
  | noContext
  | resumed (reply : String)
  deriving DecidableEq, Repr

/-- `Agent.step` (agent.py lines 153-158): fetch the last recorded model
message; when it is falsy (absent or empty), report the no-context
condition and do nothing else; otherwise the source invokes
`self.process_reply(response)` — an attribute resolved on the `Agent` class
at call time, raising `AttributeError` when no method of that name exists. -/
def AgentState.step (a : AgentState) : Except String StepResult :=
  match a.llm.get_last_message with
  | none => Except.ok StepResult.noContext
  | some r =>
    if r = "" then Except.ok StepResult.noContext
    else if "process_reply" ∈ agentMethodNames then Except.ok (StepResult.resumed r)
    else Except.error "AttributeError: Agent object has no attribute process_reply"

/-- One capability entry of the `api` configuration mapping (agent.py lines
52-66): an ordered `env` mapping of variable name to `(value, description)`
pairs, and an optional free-text description. -/
structure ApiConf where
  env : List (String × String × String)
  apiDesc : Option String
  deriving DecidableEq, Repr

/-- The slice of the configuration object that `Agent._init` reads for
prompt assembly (agent.py lines 44 and 49-67). -/
structure AgentConfig where
  system_prompt : Option String
  api : Option (List (String × ApiConf))
  deriving DecidableEq, Repr

/-- The inner `for name, (value, desc) in envs.items()` loop (agent.py
lines 57-63): strip each value, skip blank values, otherwise emit the
`- name: description` prompt line and register the binding
`(name, stripped value, description)` with the execution collaborator. -/
def envSection : List (String × String × String) → List String × List (String × String × String)
  | [] => ([], [])
  | (name, value, d) :: rest =>
    let v := pyStrip value
    let (ls, bs) := envSection rest
    if v == "" then (ls, bs)
    else (("- " ++ name ++ ": " ++ d) :: ls, (name, v, d) :: bs)

/-- One iteration of the outer `for api_name, api_conf in api.items()` loop
(agent.py lines 52-66): the `## name API` header, then — when the `env`
mapping is non-empty — the environment-description subsection header and
the env lines, then — when the free-text description is truthy — the API
description subsection. -/
def apiSection (T : String → String) (name : String) (conf : ApiConf) :
    List String × List (String × String × String) :=
  let (els, bs) := envSection conf.env
  let envPart := if conf.env.isEmpty then [] else ("### " ++ T "env_description") :: els
  let descPart :=
    match conf.apiDesc with
    | some d => if d == "" then [] else ["### API " ++ T "description" ++ "\n" ++ d]
    | none => []
  (("## " ++ name ++ " API") :: envPart ++ descPart, bs)

/-- The outer loop of prompt assembly over all capability entries, in
order, concatenating prompt lines and registered bindings. -/
def apiSections (T : String → String) : List (String × ApiConf) →
    List String × List (String × String × String)
  | [] => ([], [])
  | (n, c) :: rest =>
    let (ls, bs) := apiSection T n c
    let (ls', bs') := apiSections T rest
    (ls ++ ls', bs ++ bs')

/-- The prompt-assembly part of `Agent._init` (agent.py lines 44 and
49-67).  `T` is the i18n translation table (i18n.py is not under src/),
modelled from the spec as an abstract key-to-text function.  Returns the
resulting `system_prompt` and the list of bindings registered with the
execution collaborator, in registration order.  When `api` is absent or
empty (falsy in Python), the configured `system_prompt` is kept unchanged
and nothing is registered.  When `api` is non-empty but `system_prompt` is
`None`, the Python `"\n".join(lines)` raises a `TypeError`, embedded as the
error arm. -/
def Agent.init_prompt (T : String → String) (config : AgentConfig) :
    Except String (Option String × List (String × String × String)) :=
  match config.api with
  | none => Except.ok (config.system_prompt, [])
  | some [] => Except.ok (config.system_prompt, [])
  | some apis =>
    match config.system_prompt with
    | none => Except.error "TypeError: sequence item 0: expected str instance, NoneType found"
    | some sp =>
      let (ls, bs) := apiSections T apis
      Except.ok (some (pyJoin (sp :: ls)), bs)

/-- Modelled from the spec: what `publish` observes of the HTTP response.
`jsonUrl` is the `url` field of the JSON-parsed body when the body is valid
JSON carrying that key, and `none` otherwise, in which case
`response.json()['url']` raises. -/
structure HttpResponse where
  status_code : Nat
  text : String
  jsonUrl : Option String
  deriving DecidableEq, Repr

/-- What `publish` reports to the operator. -/
inductive PublishReport where
  | disabled
  | transportError (e : String)
  | success (url : String)
  | failed (status : Nat) (body : String)
  deriving DecidableEq, Repr

/-- The observable outcome of one `publish` call: whether the HTTP POST was
performed, and what was reported. -/
structure PublishOutcome where
  posted : Bool
  report : PublishReport
  deriving DecidableEq, Repr

/-- `Agent.publish` (agent.py lines 160-185).  `url` and `cert` are the
configured `publish.url` and `publish.cert` settings; when either is falsy,
publishing is reported disabled and no POST happens.  The `requests.post`
transport is external and modelled by its outcome `postResult`: an
exception, or an `HttpResponse`.  A transport exception is caught and
reported.  On status 201 the source reads `response.json()['url']` outside
the `try` block, so a body without a parseable `url` raises out of
`publish`, embedded as the error arm; any other status is reported as a
failure with status code and raw body.  (Title and author defaulting and
the certificate materialization to `/tmp` are filesystem/OS side effects
with no bearing on the embedded claims.) -/
def Agent.publish (url cert : Option String) (postResult : Except String HttpResponse) :
    Except String PublishOutcome :=
  if !(truthyOpt url && truthyOpt cert) then
    Except.ok { posted := false, report := PublishReport.disabled }
  else
    match postResult with
    | Except.error e => Except.ok { posted := true, report := PublishReport.transportError e }
    | Except.ok r =>
      if r.status_code = 201 then
        match r.jsonUrl with
        | some u => Except.ok { posted := true, report := PublishReport.success u }
        | none => Except.error "KeyError or JSONDecodeError while reading the 201 body"
      else
        Except.ok { posted := true, report := PublishReport.failed r.status_code r.text }

/-- Lines whose stripped form does not start with the runnable marker are
skipped while outside the fence. -/
theorem parseLoop_skip_outside (rest acc : List String) :
    ∀ pre : List String, (∀ l ∈ pre, pyStartsWith (pyStrip l) "```run" = false) →
      Agent.parseLoop (pre ++ rest) false acc = Agent.parseLoop rest false acc := by
  intro pre
  induction pre with
  | nil => intro _; rfl
  | cons l pre ih =>
    intro h
    have hl := h l (List.mem_cons_self l pre)
    simp only [List.cons_append, Agent.parseLoop, hl, Bool.and_false, if_neg, if_false,
      Bool.false_eq_true, ite_false]
    exact ih fun x hx => h x (List.mem_cons_of_mem l hx)

/-- A line whose stripped form starts with the runnable marker enters the
fence and is itself skipped. -/
theorem parseLoop_open (o : String) (rest acc : List String)
    (h : pyStartsWith (pyStrip o) "```run" = true) :
    Agent.parseLoop (o :: rest) false acc = Agent.parseLoop rest true acc := by
  simp [Agent.parseLoop, h]

/-- Inside the fence, lines that are not fence lines are collected in
order. -/
theorem parseLoop_collect (rest : List String) :
    ∀ mid acc : List String,
      (∀ l ∈ mid, pyStartsWith (pyStrip l) "```run" = false ∧
        pyStartsWith (pyStrip l) "```" = false) →
      Agent.parseLoop (mid ++ rest) true acc = Agent.parseLoop rest true (acc ++ mid) := by
  intro mid
  induction mid with
  | nil => intro acc _; simp
  | cons l mid ih =>
    intro acc h
    have hl := h l (List.mem_cons_self l mid)
    simp only [List.cons_append, Agent.parseLoop, hl.1, hl.2, Bool.false_and, if_false,
      Bool.false_eq_true, ite_false, ite_true, if_true, List.append_eq]
    rw [ih (acc ++ [l]) fun x hx => h x (List.mem_cons_of_mem l hx)]
    simp

/-- Inside the fence, a plain closing fence line (one that starts with the
generic marker but not the runnable one) stops the scan and everything
after it is ignored. -/
theorem parseLoop_close (c : String) (rest acc : List String)
    (h1 : pyStartsWith (pyStrip c) "```" = true)
    (h2 : pyStartsWith (pyStrip c) "```run" = false) :
    Agent.parseLoop (c :: rest) true acc = acc := by
  simp [Agent.parseLoop, h1, h2]

/-- When no line starts with the runnable marker, nothing is ever
collected. -/
theorem parseLoop_no_fence :
    ∀ lines acc : List String, (∀ l ∈ lines, pyStartsWith (pyStrip l) "```run" = false) →
      Agent.parseLoop lines false acc = acc := by
  intro lines
  induction lines with
  | nil => intro acc _; rfl
  | cons l rest ih =>
    intro acc h
    have hl := h l (List.mem_cons_self l rest)
    simp only [Agent.parseLoop, hl, Bool.and_false, Bool.false_eq_true, ite_false, if_false]
    exact ih acc fun x hx => h x (List.mem_cons_of_mem l hx)

/-- The collected block of a text whose lines are: a prefix without
runnable openers, a runnable opener, interior lines that are not fence
lines, a plain closing fence, and an arbitrary tail. -/
theorem parseLoop_fenced (pre mid post : List String) (o c : String)
    (hpre : ∀ l ∈ pre, pyStartsWith (pyStrip l) "```run" = false)
    (ho : pyStartsWith (pyStrip o) "```run" = true)
    (hmid : ∀ l ∈ mid, pyStartsWith (pyStrip l) "```run" = false ∧
      pyStartsWith (pyStrip l) "```" = false)
    (hc1 : pyStartsWith (pyStrip c) "```" = true)
    (hc2 : pyStartsWith (pyStrip c) "```run" = false) :
    Agent.parseLoop (pre ++ o :: (mid ++ c :: post)) false [] = mid := by
  rw [parseLoop_skip_outside _ _ pre hpre, parseLoop_open _ _ _ ho,
    parseLoop_collect _ mid [] hmid, parseLoop_close _ _ _ hc1 hc2]
  simp

/-- C3 (amended): for every reply text containing a properly closed
runnable fence — its newline-split lines being a prefix with no runnable
opener, an opener line, interior lines that are not fence lines, a plain
closing fence line, then an arbitrary tail — with at least one interior
line, `parse_reply` returns CODE whose payload is exactly the interior
lines joined with the original line breaks, fence lines excluded; and for
every text containing no runnable fence opener, `parse_reply` returns TEXT
with no code payload.  (The claim as frozen omits the non-empty-interior
proviso: an empty-interior fence classifies as TEXT, see the
counterexample.) -/
theorem parse_reply_classification :
    (∀ (text : String) (pre mid post : List String) (o c : String),
      pySplit text = pre ++ o :: (mid ++ c :: post) →
      (∀ l ∈ pre, pyStartsWith (pyStrip l) "```run" = false) →
      pyStartsWith (pyStrip o) "```run" = true →
      (∀ l ∈ mid, pyStartsWith (pyStrip l) "```run" = false ∧
        pyStartsWith (pyStrip l) "```" = false) →
      pyStartsWith (pyStrip c) "```" = true →
      pyStartsWith (pyStrip c) "```run" = false →
      mid ≠ [] →
      Agent.parse_reply text = { type := MsgType.CODE, code := some (pyJoin mid) }) ∧
    (∀ text : String,
      (∀ l ∈ pySplit text, pyStartsWith (pyStrip l) "```run" = false) →
      Agent.parse_reply text = { type := MsgType.TEXT, code := none }) := by
  constructor
  · intro text pre mid post o c hsplit hpre ho hmid hc1 hc2 hne
    simp only [Agent.parse_reply]
    rw [hsplit, parseLoop_fenced pre mid post o c hpre ho hmid hc1 hc2]
    simp [hne]
  · intro text h
    simp only [Agent.parse_reply]
    rw [parseLoop_no_fence _ _ h]
    simp

/-- Witness for C3 at concrete inputs: a fenced reply classifies as CODE
with exactly the interior, an unfenced reply as TEXT. -/
theorem parse_reply_classification_witness :
    Agent.parse_reply "a\n```run\nx\ny\n```\nb" =
      { type := MsgType.CODE, code := some (pyJoin ["x", "y"]) } ∧
    Agent.parse_reply "hello\nworld" = { type := MsgType.TEXT, code := none } :=
  ⟨parse_reply_classification.1 "a\n```run\nx\ny\n```\nb" ["a"] ["x", "y"] ["b"] "```run" "```"
      (by decide) (by decide) (by decide) (by decide) (by decide) (by decide) (by decide),
    parse_reply_classification.2 "hello\nworld" (by decide)⟩

/-- C3 counterexample: the text of a runnable opener line directly followed
by a plain closing fence line is a properly closed runnable fence in the
claim's sense, yet `parse_reply` classifies it as TEXT with no payload
rather than CODE. -/
theorem parse_reply_closed_fence_counterexample :
    pySplit "```run\n```" = [] ++ "```run" :: ([] ++ "```" :: []) ∧
    pyStartsWith (pyStrip "```run") "```run" = true ∧
    pyStartsWith (pyStrip "```") "```" = true ∧
    pyStartsWith (pyStrip "```") "```run" = false ∧
    Agent.parse_reply "```run\n```" = { type := MsgType.TEXT, code := none } := by
  decide

/-- C4: when a reply text contains two runnable fences, `parse_reply`
returns the interior of only the first fence: content before the first
fence, between the fences, and after the first closing fence — including
the entire second fence — is ignored. -/
theorem parse_reply_first_fence_only
    (text : String) (pre mid₁ betw mid₂ post : List String) (o₁ c₁ o₂ c₂ : String)
    (hsplit : pySplit text =
      pre ++ o₁ :: (mid₁ ++ c₁ :: (betw ++ o₂ :: (mid₂ ++ c₂ :: post))))
    (hpre : ∀ l ∈ pre, pyStartsWith (pyStrip l) "```run" = false)
    (ho₁ : pyStartsWith (pyStrip o₁) "```run" = true)
    (hmid₁ : ∀ l ∈ mid₁, pyStartsWith (pyStrip l) "```run" = false ∧
      pyStartsWith (pyStrip l) "```" = false)
    (hc₁ : pyStartsWith (pyStrip c₁) "```" = true)
    (hc₁r : pyStartsWith (pyStrip c₁) "```run" = false)
    (ho₂ : pyStartsWith (pyStrip o₂) "```run" = true)
    (hc₂ : pyStartsWith (pyStrip c₂) "```" = true)
    (hne : mid₁ ≠ []) :
    Agent.parse_reply text = { type := MsgType.CODE, code := some (pyJoin mid₁) } := by
  simp only [Agent.parse_reply]
  rw [hsplit, parseLoop_fenced pre mid₁ (betw ++ o₂ :: (mid₂ ++ c₂ :: post)) o₁ c₁
    hpre ho₁ hmid₁ hc₁ hc₁r]
  simp [hne]

/-- Witness for C4: a reply holding two runnable fences yields only the
first fence's interior. -/
theorem parse_reply_first_fence_only_witness :
    Agent.parse_reply "a\n```run\nx\n```\nm\n```run\ny\n```\nz" =
      { type := MsgType.CODE, code := some (pyJoin ["x"]) } :=
  parse_reply_first_fence_only "a\n```run\nx\n```\nm\n```run\ny\n```\nz"
    ["a"] ["x"] ["m"] ["y"] ["z"] "```run" "```" "```run" "```"
    (by decide) (by decide) (by decide) (by decide) (by decide) (by decide)
    (by decide) (by decide) (by decide)

/-- C9: a runnable opener line immediately followed by a closing fence line
(a properly closed runnable fence with empty interior) classifies as TEXT
with no code payload rather than CODE with an empty string; the CODE
classification arises only when at least one interior line was collected —
a single blank interior line already suffices for CODE. -/
theorem parse_reply_empty_fence :
    Agent.parse_reply "```run\n```" = { type := MsgType.TEXT, code := none } ∧
    Agent.parse_reply "```run\n\n```" = { type := MsgType.CODE, code := some "" } := by
  decide

/-- The loop returns immediately on an empty reply. -/
theorem runLoop_empty (exec : String → String) (fuel : Nat) (a : AgentState) :
    AgentState.runLoop exec (fuel + 1) a "" = a := by
  simp [AgentState.runLoop]

/-- The loop returns immediately on a non-empty reply not classified
CODE. -/
theorem runLoop_text (exec : String → String) (fuel : Nat) (a : AgentState) (r : String)
    (h0 : r ≠ "") (h : (Agent.parse_reply r).type ≠ MsgType.CODE) :
    AgentState.runLoop exec (fuel + 1) a r = a := by
  simp [AgentState.runLoop, h0, h]

/-- On a non-empty CODE reply, the loop runs one execution-feedback cycle
and continues with the model's next reply. -/
theorem runLoop_code (exec : String → String) (fuel : Nat) (a : AgentState) (r : String)
    (h0 : r ≠ "") (h : (Agent.parse_reply r).type = MsgType.CODE) :
    AgentState.runLoop exec (fuel + 1) a r =
      AgentState.runLoop exec fuel
        (a.process_code_reply exec ((Agent.parse_reply r).code.getD "")).2
        (a.process_code_reply exec ((Agent.parse_reply r).code.getD "")).1 := by
  simp [AgentState.runLoop, h0, h]

/-- What one model call changes on the agent state: the reply trace gains
the system-prompt argument, the model history is extended (so it is
non-empty afterwards), and instruction, system prompt and execution trace
are untouched. -/
theorem llmSend_snd (a : AgentState) (prompt : String) (sys : Option String) :
    (a.llmSend prompt sys).2.sentSysPrompts = a.sentSysPrompts ++ [sys] ∧
    (a.llmSend prompt sys).2.executed = a.executed ∧
    (a.llmSend prompt sys).2.instruction = a.instruction ∧
    (a.llmSend prompt sys).2.system_prompt = a.system_prompt ∧
    ∃ H, H ≠ [] ∧ (a.llmSend prompt sys).2.llm.history = a.llm.history ++ H := by
  refine ⟨rfl, rfl, rfl, rfl, ?_⟩
  cases hs : a.llm.script with
  | nil =>
    exact ⟨[{ role := Role.user, content := prompt }], by simp,
      by simp [AgentState.llmSend, LLMModel.send, hs]⟩
  | cons r rest =>
    exact ⟨[{ role := Role.user, content := prompt }, { role := Role.assistant, content := r }],
      by simp, by simp [AgentState.llmSend, LLMModel.send, hs]⟩

/-- Trace invariants of the feedback loop: it never touches the recorded
instruction or the session system prompt, every model call it makes
carries no system prompt, and the model history only grows. -/
theorem runLoop_trace (exec : String → String) :
    ∀ (fuel : Nat) (a : AgentState) (response : String),
      (AgentState.runLoop exec fuel a response).instruction = a.instruction ∧
      (AgentState.runLoop exec fuel a response).system_prompt = a.system_prompt ∧
      (∃ L, (AgentState.runLoop exec fuel a response).sentSysPrompts =
          a.sentSysPrompts ++ L ∧ ∀ s ∈ L, s = none) ∧
      ∃ H, (AgentState.runLoop exec fuel a response).llm.history = a.llm.history ++ H := by
  intro fuel
  induction fuel with
  | zero =>
    intro a response
    exact ⟨rfl, rfl, ⟨[], by simp [AgentState.runLoop], by simp⟩,
      ⟨[], by simp [AgentState.runLoop]⟩⟩
  | succ n ih =>
    intro a response
    by_cases h0 : response = ""
    · subst h0
      rw [runLoop_empty]
      exact ⟨rfl, rfl, ⟨[], by simp, by simp⟩, ⟨[], by simp⟩⟩
    · by_cases hc : (Agent.parse_reply response).type = MsgType.CODE
      · rw [runLoop_code exec n a response h0 hc]
        set code := (Agent.parse_reply response).code.getD "" with hcode
        obtain ⟨hi, hsp, ⟨L, hL, hall⟩, ⟨H, hH⟩⟩ :=
          ih (a.process_code_reply exec code).2 (a.process_code_reply exec code).1
        obtain ⟨hsent, hexec, hinstr, hsys, ⟨H₀, hH₀ne, hH₀⟩⟩ :=
          llmSend_snd { a with executed := a.executed ++ [code] } (exec code) none
        refine ⟨?_, ?_, ⟨none :: L, ?_, ?_⟩, ⟨H₀ ++ H, ?_⟩⟩
        · rw [hi]; exact hinstr
        · rw [hsp]; exact hsys
        · rw [hL]
          have : (a.process_code_reply exec code).2.sentSysPrompts =
              a.sentSysPrompts ++ [none] := hsent
          rw [this]; simp
        · intro s hs
          rcases List.mem_cons.mp hs with h | h
          · exact h
          · exact hall s h
        · rw [hH]
          have : (a.process_code_reply exec code).2.llm.history =
              a.llm.history ++ H₀ := hH₀
          rw [this]; simp
      · rw [runLoop_text exec n a response h0 hc]
        exact ⟨rfl, rfl, ⟨[], by simp, by simp⟩, ⟨[], by simp⟩⟩

/-- C2: in every run of the instruction loop, the system-prompt argument of
the first model call is the session's `system_prompt` exactly when the
model's history is empty (and `None` otherwise); every later model call of
the run — in particular every feedback turn resubmitting an execution
result — carries no system prompt; after the run the model's history is
non-empty, so a further instruction in the same session attaches `None`
unless `clear` empties the history; and when the attached prompt is truthy
the instruction is recorded as the session's active instruction. -/
theorem Agent.call_system_prompt_once (exec : String → String) (a : AgentState)
    (instr : String) (h : a.sentSysPrompts = []) :
    (AgentState.call exec a instr).sentSysPrompts.head? =
        some (if a.llm.history = [] then a.system_prompt else none) ∧
    (∀ s ∈ (AgentState.call exec a instr).sentSysPrompts.tail, s = none) ∧
    (AgentState.call exec a instr).llm.history ≠ [] ∧
    (truthyOpt (if a.llm.history = [] then a.system_prompt else none) = true →
      (AgentState.call exec a instr).instruction = some instr) ∧
    (AgentState.clear a).llm.history = [] := by
  set sys := if a.llm.history = [] then a.system_prompt else none with hsysdef
  set a₁ := if truthyOpt sys then { a with instruction := some instr } else a with ha₁
  have hcall : AgentState.call exec a instr =
      AgentState.runLoop exec ((a₁.llmSend instr sys).2.llm.script.length + 2)
        (a₁.llmSend instr sys).2 (a₁.llmSend instr sys).1 := rfl
  have h₁ : a₁.sentSysPrompts = [] ∧ a₁.llm = a.llm := by
    rw [ha₁]; split <;> exact ⟨h, rfl⟩
  obtain ⟨hsent, hexec, hinstr, hsys2, ⟨H₀, hH₀ne, hH₀⟩⟩ := llmSend_snd a₁ instr sys
  obtain ⟨hi, hsp, ⟨L, hL, hall⟩, ⟨H, hH⟩⟩ :=
    runLoop_trace exec ((a₁.llmSend instr sys).2.llm.script.length + 2)
      (a₁.llmSend instr sys).2 (a₁.llmSend instr sys).1
  refine ⟨?_, ?_, ?_, ?_, rfl⟩
  · rw [hcall, hL, hsent, h₁.1]; simp
  · intro s hs
    rw [hcall, hL, hsent, h₁.1] at hs
    simp only [List.nil_append, List.cons_append, List.tail_cons] at hs
    exact hall s hs
  · rw [hcall, hH, hH₀, h₁.2]
    intro hnil
    rcases List.append_eq_nil.mp hnil with ⟨hnl, -⟩
    rcases List.append_eq_nil.mp hnl with ⟨-, hne⟩
    exact hH₀ne hne
  · intro htr
    rw [hcall, hi, hinstr, ha₁]
    simp [htr]

/-- `call` is the feedback loop started on the reply to the instruction,
from a state whose model component advanced by one `send` and whose
execution trace is unchanged. -/
theorem call_eq_loop (exec : String → String) (a : AgentState) (instr : String) :
    ∃ a₂ : AgentState,
      AgentState.call exec a instr =
        AgentState.runLoop exec (a₂.llm.script.length + 2) a₂ ((a.llm.send instr).1) ∧
      a₂.llm = (a.llm.send instr).2 ∧ a₂.executed = a.executed := by
  by_cases htr : truthyOpt (if a.llm.history = [] then a.system_prompt else none) = true
  · refine ⟨({ a with instruction := some instr }.llmSend instr
        (if a.llm.history = [] then a.system_prompt else none)).2, ?_, rfl, rfl⟩
    simp only [AgentState.call, htr, if_true, ite_true]
    rfl
  · refine ⟨(a.llmSend instr (if a.llm.history = [] then a.system_prompt else none)).2,
      ?_, rfl, rfl⟩
    simp only [AgentState.call, htr, if_false, Bool.false_eq_true, ite_false]
    rfl

/-- C1: the instruction loop invokes the execution collaborator exactly
once per CODE reply and terminates at the first TEXT or empty reply.  With
a model scripted to reply first with a CODE-classified text and then with a
TEXT-classified one, exactly one execution-feedback cycle occurs — exactly
the first reply's payload is handed to the execution collaborator; with a
model whose first reply is already TEXT-classified, zero cycles occur. -/
theorem Agent.call_feedback_cycles (exec : String → String) (sp : Option String)
    (instr c t : String)
    (hc : (Agent.parse_reply c).type = MsgType.CODE)
    (ht : (Agent.parse_reply t).type = MsgType.TEXT) :
    (AgentState.call exec
        { instruction := none, system_prompt := sp,
          llm := { history := [], script := [c, t] },
          executed := [], sentSysPrompts := [] } instr).executed =
      [(Agent.parse_reply c).code.getD ""] ∧
    (AgentState.call exec
        { instruction := none, system_prompt := sp,
          llm := { history := [], script := [t] },
          executed := [], sentSysPrompts := [] } instr).executed = [] := by
  have hc0 : c ≠ "" := by
    intro h0
    rw [h0] at hc
    exact absurd hc (by decide)
  have htne : (Agent.parse_reply t).type ≠ MsgType.CODE := by
    rw [ht]; decide
  constructor
  · obtain ⟨a₂, hcl, hllm, hex⟩ := call_eq_loop exec
      { instruction := none, system_prompt := sp,
        llm := { history := [], script := [c, t] },
        executed := [], sentSysPrompts := [] } instr
    have hlen : a₂.llm.script.length + 2 = 2 + 1 := by rw [hllm]; rfl
    rw [hcl, hlen]
    show (AgentState.runLoop exec (2 + 1) a₂ c).executed =
      [(Agent.parse_reply c).code.getD ""]
    rw [runLoop_code exec 2 a₂ c hc0 hc]
    have hfed1 : (a₂.process_code_reply exec ((Agent.parse_reply c).code.getD "")).1 = t := by
      show (a₂.llm.send (exec ((Agent.parse_reply c).code.getD ""))).1 = t
      rw [hllm]
      rfl
    rw [hfed1]
    have hfedex : (a₂.process_code_reply exec ((Agent.parse_reply c).code.getD "")).2.executed =
        a₂.executed ++ [(Agent.parse_reply c).code.getD ""] := rfl
    rw [show (2 : Nat) = 1 + 1 from rfl]
    by_cases ht0 : t = ""
    · rw [ht0, runLoop_empty, hfedex, hex]
      rfl
    · rw [runLoop_text exec 1 _ t ht0 htne, hfedex, hex]
      rfl
  · obtain ⟨a₂, hcl, hllm, hex⟩ := call_eq_loop exec
      { instruction := none, system_prompt := sp,
        llm := { history := [], script := [t] },
        executed := [], sentSysPrompts := [] } instr
    have hlen : a₂.llm.script.length + 2 = 1 + 1 := by rw [hllm]; rfl
    rw [hcl, hlen]
    show (AgentState.runLoop exec (1 + 1) a₂ t).executed = []
    by_cases ht0 : t = ""
    · rw [ht0, runLoop_empty, hex]
    · rw [runLoop_text exec 1 a₂ t ht0 htne, hex]








/-- Witness for C1: with the model scripted CODE-then-TEXT exactly the
fenced payload is executed; with a first TEXT reply nothing is executed. -/
theorem Agent.call_feedback_cycles_witness :
    (AgentState.call (fun s => s)
        { instruction := none, system_prompt := some "SYS",
          llm := { history := [], script := ["```run\nprint(1)\n```", "done"] },
          executed := [], sentSysPrompts := [] } "go").executed =
      [(Agent.parse_reply "```run\nprint(1)\n```").code.getD ""] ∧
    (AgentState.call (fun s => s)
        { instruction := none, system_prompt := some "SYS",
          llm := { history := [], script := ["done"] },
          executed := [], sentSysPrompts := [] } "go").executed = [] :=
  Agent.call_feedback_cycles (fun s => s) (some "SYS") "go" "```run\nprint(1)\n```" "done"
    (by decide) (by decide)

/-- A fresh two-reply session used to witness the system-prompt
invariant. -/
def agentW : AgentState :=
  { instruction := none, system_prompt := some "SYS",
    llm := { history := [], script := ["```run\nx\n```", "done"] },
    executed := [], sentSysPrompts := [] }

/-- Witness for C2 on a fresh session with a CODE-then-TEXT script: the
first model call carries the system prompt, the instruction is recorded,
and the model history is non-empty afterwards. -/
theorem Agent.call_system_prompt_once_witness :
    (AgentState.call (fun s => s) agentW "go").sentSysPrompts.head? = some (some "SYS") ∧
    (∀ s ∈ (AgentState.call (fun s => s) agentW "go").sentSysPrompts.tail, s = none) ∧
    (AgentState.call (fun s => s) agentW "go").llm.history ≠ [] ∧
    (AgentState.call (fun s => s) agentW "go").instruction = some "go" ∧
    (AgentState.clear agentW).llm.history = [] :=
  ⟨(Agent.call_system_prompt_once (fun s => s) agentW "go" rfl).1,
   (Agent.call_system_prompt_once (fun s => s) agentW "go" rfl).2.1,
   (Agent.call_system_prompt_once (fun s => s) agentW "go" rfl).2.2.1,
   (Agent.call_system_prompt_once (fun s => s) agentW "go" rfl).2.2.2.1 rfl,
   (Agent.call_system_prompt_once (fun s => s) agentW "go" rfl).2.2.2.2⟩

/-- C5, evaluated on the code: resuming with no recorded model message
reports the no-context condition and takes no further action; resuming
with a non-empty last model message does not reach any classify-then-execute
branch — the source invokes `self.process_reply`, no method of that name
exists on `Agent`, and an `AttributeError` is raised instead. -/
theorem Agent.step_no_context_and_missing_method :
    (AgentState.step
        { instruction := none, system_prompt := none,
          llm := { history := [], script := [] },
          executed := [], sentSysPrompts := [] } =
      Except.ok StepResult.noContext) ∧
    ("process_reply" ∉ agentMethodNames) ∧
    (AgentState.step
        { instruction := none, system_prompt := none,
          llm := { history := [{ role := Role.user, content := "go" },
                               { role := Role.assistant, content := "hi" }], script := [] },
          executed := [], sentSysPrompts := [] } =
      Except.error "AttributeError: Agent object has no attribute process_reply") :=
  ⟨rfl, by decide, rfl⟩

/-- The configuration of the C6 scenario. -/
def weatherConfig : AgentConfig :=
  { system_prompt := some "Base",
    api := some [("Weather",
      { env := [("API_KEY", "abc", "key")], apiDesc := some "Gets weather" })] }

/-- C6: from the Weather configuration, `_init` assembles the prompt lines
"Base", the "## Weather API" section header, the environment-description
subsection header with the line "- API_KEY: key", and the description
subsection containing "Gets weather", and registers exactly the one binding
API_KEY = "abc" with the execution collaborator — for every translation
table `T`. -/
theorem Agent.init_prompt_weather (T : String → String) :
    Agent.init_prompt T weatherConfig =
      Except.ok (some (pyJoin ["Base", "## Weather API", "### " ++ T "env_description",
        "- API_KEY: key", "### API " ++ T "description" ++ "\n" ++ "Gets weather"]),
        [("API_KEY", "abc", "key")]) := rfl

/-- C7: when the configured publish URL or client certificate is absent,
`publish` performs no network call, reports publishing disabled, and
returns without error. -/
theorem Agent.publish_disabled (url cert : Option String)
    (post : Except String HttpResponse) (h : url = none ∨ cert = none) :
    Agent.publish url cert post =
      Except.ok { posted := false, report := PublishReport.disabled } := by
  rcases h with h | h <;> subst h <;> simp [Agent.publish, truthyOpt]

/-- Witness for C7 with the URL absent. -/
theorem Agent.publish_disabled_witness :
    Agent.publish none (some "CERT")
        (Except.ok { status_code := 201, text := "", jsonUrl := some "u" }) =
      Except.ok { posted := false, report := PublishReport.disabled } :=
  Agent.publish_disabled none (some "CERT")
    (Except.ok { status_code := 201, text := "", jsonUrl := some "u" }) (Or.inl rfl)

/-- C8: when publish reaches the upload, a status 201 response with a
parseable body is reported as success with the returned resource URL, any
other status is reported as failure with the status code and the raw body,
and a transport-level exception is caught and reported without
propagating. -/
theorem Agent.publish_status_handling (url cert : Option String)
    (hu : truthyOpt url = true) (hc : truthyOpt cert = true) :
    (∀ e : String, Agent.publish url cert (Except.error e) =
        Except.ok { posted := true, report := PublishReport.transportError e }) ∧
    (∀ (r : HttpResponse) (u : String), r.status_code = 201 → r.jsonUrl = some u →
        Agent.publish url cert (Except.ok r) =
          Except.ok { posted := true, report := PublishReport.success u }) ∧
    (∀ r : HttpResponse, r.status_code ≠ 201 →
        Agent.publish url cert (Except.ok r) =
          Except.ok { posted := true,
                      report := PublishReport.failed r.status_code r.text }) := by
  refine ⟨fun e => ?_, fun r u h1 h2 => ?_, fun r h1 => ?_⟩
  · simp [Agent.publish, hu, hc]
  · simp [Agent.publish, hu, hc, h1, h2]
  · simp [Agent.publish, hu, hc, h1]

/-- Witness for C8: concrete transport error, 201 response, and 500
response. -/
theorem Agent.publish_status_handling_witness :
    Agent.publish (some "U") (some "C") (Except.error "boom") =
      Except.ok { posted := true, report := PublishReport.transportError "boom" } ∧
    Agent.publish (some "U") (some "C")
        (Except.ok { status_code := 201, text := "", jsonUrl := some "https" }) =
      Except.ok { posted := true, report := PublishReport.success "https" } ∧
    Agent.publish (some "U") (some "C")
        (Except.ok { status_code := 500, text := "oops", jsonUrl := none }) =
      Except.ok { posted := true, report := PublishReport.failed 500 "oops" } :=
  ⟨(Agent.publish_status_handling (some "U") (some "C") rfl rfl).1 "boom",
   (Agent.publish_status_handling (some "U") (some "C") rfl rfl).2.1
     { status_code := 201, text := "", jsonUrl := some "https" } "https" rfl rfl,
   (Agent.publish_status_handling (some "U") (some "C") rfl rfl).2.2
     { status_code := 500, text := "oops", jsonUrl := none } (by decide)⟩

/-- C10: a 201 response whose body is not valid JSON or lacks the url key
makes `publish` raise: the error escapes as the error arm; the exception
handler covers only the POST itself, so a transport error is still caught
and reported normally. -/
theorem Agent.publish_json_error_escapes (url cert : Option String) (r : HttpResponse)
    (hu : truthyOpt url = true) (hc : truthyOpt cert = true)
    (h201 : r.status_code = 201) (hj : r.jsonUrl = none) :
    Agent.publish url cert (Except.ok r) =
      Except.error "KeyError or JSONDecodeError while reading the 201 body" ∧
    ∀ e : String, Agent.publish url cert (Except.error e) =
      Except.ok { posted := true, report := PublishReport.transportError e } := by
  constructor
  · simp [Agent.publish, hu, hc, h201, hj]
  · intro e
    simp [Agent.publish, hu, hc]

/-- Witness for C10: a concrete 201 response with an unparseable body
raises, while a concrete transport error is caught. -/
theorem Agent.publish_json_error_escapes_witness :
    Agent.publish (some "U") (some "C")
        (Except.ok { status_code := 201, text := "not json", jsonUrl := none }) =
      Except.error "KeyError or JSONDecodeError while reading the 201 body" ∧
    Agent.publish (some "U") (some "C") (Except.error "conn reset") =
      Except.ok { posted := true, report := PublishReport.transportError "conn reset" } :=
  ⟨(Agent.publish_json_error_escapes (some "U") (some "C")
      { status_code := 201, text := "not json", jsonUrl := none } rfl rfl rfl rfl).1,
   (Agent.publish_json_error_escapes (some "U") (some "C")
      { status_code := 201, text := "not json", jsonUrl := none } rfl rfl rfl rfl).2
     "conn reset"⟩
